import Mathlib

/-!
Verification of the client-side game logic of the noughts-and-crosses
repository (`ttt.py`): the move guard (`make_turn`), snapshot application
(`on_ws_event`), the reconnect loop (`keep_connection`), and the stability
of the client identity token.  Stateful methods of `GameApp` are embedded
as pure functions on an explicit state record; the infinite reconnect loop
is embedded as a fold over a finite trace of connection-attempt outcomes.
-/

namespace Ttt

/-- Connection state of the client websocket, from `WebsocketConnectionState`
in `ttt.py` (an `IntEnum` with members `CONNECTED = 1`, `DISCONNECTED = 2`). -/
inductive WebsocketConnectionState
  | CONNECTED
  | DISCONNECTED
deriving DecidableEq

/-- The two local UI events posted by the connection loop: `Connect` and
`Disconnect` in `ttt.py`, consumed by the footer as connectivity
indicators. -/
inductive ConnEvent
  | connect
  | disconnect
deriving DecidableEq

/-- Modelled from the spec: the cell-state enumeration `BoxType` lives in
`ttt.game`, which is not under `src/`; the spec fixes its members as
`empty | nought | cross`, and `ttt.py` names exactly these three members. -/
inductive BoxType
  | empty
  | nought
  | cross
deriving DecidableEq

/-- Modelled from the spec: the `GameStatus` enumeration lives in `ttt.game`,
which is not under `src/`; the spec fixes the statuses as
`awaiting | in_progress | finished_won | finished_draw`, and `ttt.py` names
the members `awaiting` and `in_progress`. -/
inductive GameStatus
  | awaiting
  | in_progress
  | finished_won
  | finished_draw
deriving DecidableEq

/-- Modelled from the spec: payload of a client-to-server operation message,
`{"payload": {"turn": <int 0..8>}}`; the class `WsOperationPayload` lives in
`ttt.ws_utils`, which is not under `src/`. -/
structure WsOperationPayload where
  turn : Nat
deriving DecidableEq

/-- Modelled from the spec: the client-to-server operation message wrapper
`WsOperation` of `ttt.ws_utils` (not under `src/`), carrying one payload. -/
structure WsOperation where
  payload : WsOperationPayload
deriving DecidableEq

/-- Modelled from the spec: payload of a server-to-client state event,
`{"status": <enum>, "whose_turn": <string|null>, "grid": [<9 enum values>]}`;
the class lives in `ttt.ws_utils`, not under `src/`.  `ttt.py` reads exactly
the fields `status`, `whose_turn` and `grid`. -/
structure WsGameStatePayload where
  status : GameStatus
  whose_turn : Option String
  grid : List BoxType
deriving DecidableEq

/-- Modelled from the spec: the `data` field of an inbound `WsEvent` is either
a game-state event (`WsGameStateEvent`, checked by `isinstance` in
`on_ws_event`) or some other event kind. -/
inductive WsEventData
  | gameState (payload : WsGameStatePayload)
  | other
deriving DecidableEq

/-- Modelled from the spec: an inbound websocket event `WsEvent` of
`ttt.ws_utils` (not under `src/`); `ttt.py` reads its `data` field. -/
structure WsEvent where
  data : WsEventData
deriving DecidableEq

/-- Modelled from the spec: `settings.GRID_SIZE` lives in `ttt.settings`, not
under `src/`; the spec fixes a 3-by-3 grid. -/
def GRID_SIZE : Nat := 3

/-- Modelled from the spec: `settings.CLIENT_RECONNECT_TIMEOUT` lives in
`ttt.settings`, not under `src/`; the spec only requires a fixed backoff
delay, so the concrete value is irrelevant to the claims. -/
def CLIENT_RECONNECT_TIMEOUT : Nat := 1

/-- The `_box_types` rendering table of `GameApp.__init__`: empty cells render
as a space, noughts as "0", crosses as "X". -/
def box_types : BoxType → String
  | BoxType.empty => " "
  | BoxType.nought => "0"
  | BoxType.cross => "X"

/-- The client state observable by the verified logic of `GameApp`:
the identity token `_player_id`, the projection fields `game_status`,
`whose_turn` and the `_text` of the nine grid tiles (index order), and the
recorded `_websocket_connection_state`. -/
structure GameApp where
  player_id : String
  game_status : GameStatus
  whose_turn : Option String
  tiles : List String
  websocket_connection_state : WebsocketConnectionState
deriving DecidableEq

/-- `GameApp.__init__`: the identity token is generated once (here passed in
as `pid`, standing for the fresh `str(uuid.uuid4())`), the status starts
`awaiting`, `whose_turn` starts as the empty string, the grid holds
`GRID_SIZE ** 2` tiles whose `_text` is empty, and the connection state
starts `DISCONNECTED`. -/
def GameApp.init (pid : String) : GameApp :=
  { player_id := pid
    game_status := GameStatus.awaiting
    whose_turn := some ""
    tiles := List.replicate (GRID_SIZE ^ 2) ""
    websocket_connection_state := WebsocketConnectionState.DISCONNECTED }

/-- The tile-update loop of `on_ws_event`:
`for num, box_type in enumerate(grid): tiles[num]._text = box_types[box_type]`.
In the program the tile list always has `GRID_SIZE ** 2 = 9` entries and the
payload grid has 9 entries, so the second branch is unreachable there. -/
def writeTiles : List String → List BoxType → List String
  | ts, [] => ts
  | [], _ :: _ => []
  | _ :: ts, b :: bs => box_types b :: writeTiles ts bs

/-- `GameApp.on_ws_event`: a game-state event overwrites `game_status`,
`whose_turn` and every tile text from its payload; any other event leaves
the state untouched. -/
def on_ws_event (st : GameApp) (e : WsEvent) : GameApp :=
  match e.data with
  | WsEventData.gameState p =>
      { st with
        game_status := p.status
        whose_turn := p.whose_turn
        tiles := writeTiles st.tiles p.grid }
  | WsEventData.other => st

/-- Outcome of the `await self._ws.send_json(...)` call inside `make_turn`:
either it succeeds or it raises `ConnectionResetError` (the one exception
type the surrounding `try` catches). -/
inductive SendOutcome
  | ok
  | connectionReset
deriving DecidableEq

/-- Observable result of one `make_turn` call: the operation message handed
to `send_json` (if any), and whether a caught `ConnectionResetError` was
logged via `self.log`. -/
structure TurnResult where
  sent : Option WsOperation
  logged : Bool
deriving DecidableEq

/-- The guard of `make_turn`: the local projection says the game is in
progress and it is this client's turn. -/
def turnGuard (st : GameApp) : Prop :=
  st.game_status = GameStatus.in_progress ∧ st.whose_turn = some st.player_id

/-- `GameApp.make_turn`: when the guard holds, build
`WsOperation(payload=WsOperationPayload(turn=tile_num))` and hand it to
`send_json`, logging a `ConnectionResetError` if the send raises one;
otherwise do nothing.  The client state is returned unchanged in every
case (the method never writes any field). -/
def make_turn (st : GameApp) (tile_num : Nat) (send : SendOutcome) :
    GameApp × TurnResult :=
  if st.game_status = GameStatus.in_progress ∧ st.whose_turn = some st.player_id
  then
    (st,
      { sent := some { payload := { turn := tile_num } }
        logged := match send with
          | SendOutcome.connectionReset => true
          | SendOutcome.ok => false })
  else (st, { sent := none, logged := false })

/-- One grid tile as far as the click path is concerned: its `_num`. -/
structure Tile where
  num : Nat
deriving DecidableEq

/-- `Grid.__init__`: `tuple(Tile(num=i) for i in range(settings.GRID_SIZE ** 2))`. -/
def gridTiles : List Tile :=
  (List.range (GRID_SIZE ^ 2)).map Tile.mk

/-- `Tile.on_click`: forwards the tile's `_num` to `GameApp.make_turn`. -/
def Tile.on_click (t : Tile) (st : GameApp) (send : SendOutcome) :
    GameApp × TurnResult :=
  make_turn st t.num send

/-- An inbound websocket message inside the `async for msg in ws` loop:
either a TEXT message carrying a parsed `WsEvent`, or a message of any
other type (which the loop skips). -/
inductive WsMsg
  | text (e : WsEvent)
  | nonText
deriving DecidableEq

/-- Body of the `async for msg in ws` loop: TEXT messages are parsed and
dispatched to `on_ws_event`; other message types are ignored. -/
def processMsg (st : GameApp) (m : WsMsg) : GameApp :=
  match m with
  | WsMsg.text e => on_ws_event st e
  | WsMsg.nonText => st

/-- The connection-established block of `keep_connection`: if the recorded
state is `DISCONNECTED`, record `CONNECTED` and post a `Connect` event to
the footer; otherwise do nothing. -/
def onConnectEstablished (st : GameApp) : GameApp × List ConnEvent :=
  if st.websocket_connection_state = WebsocketConnectionState.DISCONNECTED
  then
    ({ st with websocket_connection_state := WebsocketConnectionState.CONNECTED },
     [ConnEvent.connect])
  else (st, [])

/-- The post-connection block of `keep_connection` (run after the `with`
block, whether the attempt was refused or an established connection ended):
if the recorded state is `CONNECTED`, record `DISCONNECTED` and post a
`Disconnect` event; otherwise do nothing. -/
def onConnectionEnd (st : GameApp) : GameApp × List ConnEvent :=
  if st.websocket_connection_state = WebsocketConnectionState.CONNECTED
  then
    ({ st with websocket_connection_state := WebsocketConnectionState.DISCONNECTED },
     [ConnEvent.disconnect])
  else (st, [])

/-- Outcome of one connection attempt of the `while True` loop: either the
connect raises `ClientConnectionError` (suppressed), or a connection is
established, delivers a finite sequence of messages, and then ends (normal
close or network drop, the latter also suppressed). -/
inductive AttemptOutcome
  | refused
  | connected (msgs : List WsMsg)
deriving DecidableEq

/-- Observable trace of one iteration of the `while True` loop of
`keep_connection`: the identity token carried in the `Cookie` header of the
attempt, the footer events posted, and the `asyncio.sleep` backoff that
ends the iteration. -/
structure IterResult where
  token : String
  notifs : List ConnEvent
  backoff : Nat
deriving DecidableEq

/-- One iteration of the `while True` loop of `keep_connection`: attempt a
connection with `Cookie: player_id=<self._player_id>`; on refusal only the
post-connection block runs; on an established connection the
connection-established block runs, the message loop runs, and then the
post-connection block runs.  Every iteration ends with the fixed backoff
sleep. -/
def keep_connection_iter (st : GameApp) (o : AttemptOutcome) :
    GameApp × IterResult :=
  match o with
  | AttemptOutcome.refused =>
      ((onConnectionEnd st).1,
       { token := st.player_id
         notifs := (onConnectionEnd st).2
         backoff := CLIENT_RECONNECT_TIMEOUT })
  | AttemptOutcome.connected msgs =>
      ((onConnectionEnd (msgs.foldl processMsg (onConnectEstablished st).1)).1,
       { token := st.player_id
         notifs := (onConnectEstablished st).2 ++
           (onConnectionEnd (msgs.foldl processMsg (onConnectEstablished st).1)).2
         backoff := CLIENT_RECONNECT_TIMEOUT })

/-- A finite run of the `while True` loop of `keep_connection`: the loop
handles every outcome in sequence and produces one `IterResult` per
connection attempt. -/
def keep_connection_run (st : GameApp) :
    List AttemptOutcome → GameApp × List IterResult
  | [] => (st, [])
  | o :: os =>
      ((keep_connection_run (keep_connection_iter st o).1 os).1,
       (keep_connection_iter st o).2 ::
         (keep_connection_run (keep_connection_iter st o).1 os).2)

/-- The read-only projection held by the client: last received status, turn
pointer, and the nine tile texts. -/
def projection (st : GameApp) : GameStatus × Option String × List String :=
  (st.game_status, st.whose_turn, st.tiles)

/-- All footer connectivity events posted over a finite run of the loop, in
order. -/
def notifsOfRun (st : GameApp) (os : List AttemptOutcome) : List ConnEvent :=
  ((keep_connection_run st os).2.map IterResult.notifs).flatten

/-- The footer events one iteration posts when it starts from the recorded
state `DISCONNECTED` (the state at the top of every loop iteration). -/
def blockNotifs : AttemptOutcome → List ConnEvent
  | AttemptOutcome.refused => []
  | AttemptOutcome.connected _ => [ConnEvent.connect, ConnEvent.disconnect]

/-- A concrete grid payload used by closed witness instances. -/
def sampleGrid : List BoxType :=
  [BoxType.nought, BoxType.cross, BoxType.empty, BoxType.empty, BoxType.empty,
   BoxType.empty, BoxType.empty, BoxType.empty, BoxType.empty]

/-- A concrete game-state payload used by closed witness instances. -/
def samplePayload : WsGameStatePayload :=
  { status := GameStatus.in_progress, whose_turn := some "a", grid := sampleGrid }

/-- A concrete game-state event used by closed witness instances. -/
def sampleEvent : WsEvent :=
  { data := WsEventData.gameState samplePayload }

/-- A concrete client state in which the move guard holds, used by closed
witness instances. -/
def sampleInProgress : GameApp :=
  { player_id := "a"
    game_status := GameStatus.in_progress
    whose_turn := some "a"
    tiles := List.replicate 9 ""
    websocket_connection_state := WebsocketConnectionState.DISCONNECTED }

theorem writeTiles_eq_map :
    ∀ (g : List BoxType) (ts : List String), ts.length = g.length →
      writeTiles ts g = g.map box_types := by
  intro g
  induction g with
  | nil =>
      intro ts h
      cases ts with
      | nil => rfl
      | cons t ts => simp at h
  | cons b bs ih =>
      intro ts h
      cases ts with
      | nil => simp at h
      | cons t ts =>
          have h' : ts.length = bs.length := by
            simpa using h
          simp [writeTiles, ih ts h']

theorem get_map_box :
    ∀ (g : List BoxType) (i : Nat),
      (g.map box_types).get? i = (g.get? i).map box_types := by
  intro g
  induction g with
  | nil => intro i; cases i <;> rfl
  | cons b bs ih =>
      intro i
      cases i with
      | zero => rfl
      | succ j => exact ih j

theorem processMsg_player_id (st : GameApp) (m : WsMsg) :
    (processMsg st m).player_id = st.player_id := by
  cases m with
  | text e =>
      cases e with
      | mk d => cases d <;> simp [processMsg, on_ws_event]
  | nonText => rfl

theorem processMsg_ws (st : GameApp) (m : WsMsg) :
    (processMsg st m).websocket_connection_state
      = st.websocket_connection_state := by
  cases m with
  | text e =>
      cases e with
      | mk d => cases d <;> simp [processMsg, on_ws_event]
  | nonText => rfl

theorem foldl_processMsg_player_id :
    ∀ (msgs : List WsMsg) (st : GameApp),
      (msgs.foldl processMsg st).player_id = st.player_id := by
  intro msgs
  induction msgs with
  | nil => intro st; rfl
  | cons m ms ih =>
      intro st
      rw [List.foldl_cons, ih, processMsg_player_id]

theorem foldl_processMsg_ws :
    ∀ (msgs : List WsMsg) (st : GameApp),
      (msgs.foldl processMsg st).websocket_connection_state
        = st.websocket_connection_state := by
  intro msgs
  induction msgs with
  | nil => intro st; rfl
  | cons m ms ih =>
      intro st
      rw [List.foldl_cons, ih, processMsg_ws]

theorem onConnectEstablished_ws (st : GameApp) :
    (onConnectEstablished st).1.websocket_connection_state
      = WebsocketConnectionState.CONNECTED := by
  cases hws : st.websocket_connection_state <;>
    simp [onConnectEstablished, hws]

theorem onConnectionEnd_ws (st : GameApp) :
    (onConnectionEnd st).1.websocket_connection_state
      = WebsocketConnectionState.DISCONNECTED := by
  cases hws : st.websocket_connection_state <;>
    simp [onConnectionEnd, hws]

theorem onConnectEstablished_player_id (st : GameApp) :
    (onConnectEstablished st).1.player_id = st.player_id := by
  cases hws : st.websocket_connection_state <;>
    simp [onConnectEstablished, hws]

theorem onConnectionEnd_player_id (st : GameApp) :
    (onConnectionEnd st).1.player_id = st.player_id := by
  cases hws : st.websocket_connection_state <;>
    simp [onConnectionEnd, hws]

theorem iter_player_id (st : GameApp) (o : AttemptOutcome) :
    (keep_connection_iter st o).1.player_id = st.player_id ∧
    (keep_connection_iter st o).2.token = st.player_id := by
  cases o with
  | refused => exact ⟨onConnectionEnd_player_id st, rfl⟩
  | connected msgs =>
      refine ⟨?_, rfl⟩
      rw [keep_connection_iter]
      rw [onConnectionEnd_player_id, foldl_processMsg_player_id,
        onConnectEstablished_player_id]

theorem iter_ws (st : GameApp) (o : AttemptOutcome) :
    (keep_connection_iter st o).1.websocket_connection_state
      = WebsocketConnectionState.DISCONNECTED := by
  cases o with
  | refused => exact onConnectionEnd_ws st
  | connected msgs => exact onConnectionEnd_ws _

theorem iter_backoff (st : GameApp) (o : AttemptOutcome) :
    (keep_connection_iter st o).2.backoff = CLIENT_RECONNECT_TIMEOUT := by
  cases o <;> rfl

theorem iter_notifs (st : GameApp) (o : AttemptOutcome)
    (h : st.websocket_connection_state
      = WebsocketConnectionState.DISCONNECTED) :
    (keep_connection_iter st o).2.notifs = blockNotifs o := by
  cases o with
  | refused =>
      simp [keep_connection_iter, blockNotifs, onConnectionEnd, h]
  | connected msgs =>
      have hest : (onConnectEstablished st).2 = [ConnEvent.connect] := by
        simp [onConnectEstablished, h]
      have hws : (msgs.foldl processMsg
          (onConnectEstablished st).1).websocket_connection_state
          = WebsocketConnectionState.CONNECTED := by
        rw [foldl_processMsg_ws, onConnectEstablished_ws]
      have hend : (onConnectionEnd (msgs.foldl processMsg
          (onConnectEstablished st).1)).2 = [ConnEvent.disconnect] := by
        simp [onConnectionEnd, hws]
      simp [keep_connection_iter, blockNotifs, hest, hend]

theorem run_tokens :
    ∀ (os : List AttemptOutcome) (st : GameApp),
      ((keep_connection_run st os).2.map IterResult.token)
          = List.replicate os.length st.player_id ∧
      (keep_connection_run st os).1.player_id = st.player_id := by
  intro os
  induction os with
  | nil => intro st; exact ⟨rfl, rfl⟩
  | cons o os ih =>
      intro st
      obtain ⟨hpid, htok⟩ := iter_player_id st o
      obtain ⟨ihmap, ihpid⟩ := ih (keep_connection_iter st o).1
      constructor
      · simp [keep_connection_run, List.replicate_succ, htok, ihmap, hpid]
      · simp [keep_connection_run, ihpid, hpid]

theorem run_backoffs :
    ∀ (os : List AttemptOutcome) (st : GameApp),
      ((keep_connection_run st os).2.map IterResult.backoff)
          = List.replicate os.length CLIENT_RECONNECT_TIMEOUT := by
  intro os
  induction os with
  | nil => intro st; rfl
  | cons o os ih =>
      intro st
      simp [keep_connection_run, List.replicate_succ, iter_backoff,
        ih (keep_connection_iter st o).1]

theorem run_ws :
    ∀ (os : List AttemptOutcome) (st : GameApp),
      st.websocket_connection_state = WebsocketConnectionState.DISCONNECTED →
      (keep_connection_run st os).1.websocket_connection_state
        = WebsocketConnectionState.DISCONNECTED := by
  intro os
  induction os with
  | nil => intro st h; exact h
  | cons o os ih =>
      intro st _
      exact ih (keep_connection_iter st o).1 (iter_ws st o)

theorem run_notifs :
    ∀ (os : List AttemptOutcome) (st : GameApp),
      st.websocket_connection_state = WebsocketConnectionState.DISCONNECTED →
      notifsOfRun st os = (os.map blockNotifs).flatten := by
  intro os
  induction os with
  | nil => intro st _; rfl
  | cons o os ih =>
      intro st h
      have h1 := iter_notifs st o h
      have h2 := ih (keep_connection_iter st o).1 (iter_ws st o)
      simp only [notifsOfRun, keep_connection_run, List.map_cons,
        List.flatten_cons] at h2 ⊢
      rw [h1, h2]

theorem chain_blockNotifs :
    ∀ (os : List AttemptOutcome),
      List.Chain' (fun a b => a ≠ b) ((os.map blockNotifs).flatten) ∧
      (((os.map blockNotifs).flatten).head? = none ∨
        ((os.map blockNotifs).flatten).head? = some ConnEvent.connect) := by
  intro os
  induction os with
  | nil => exact ⟨List.chain'_nil, Or.inl rfl⟩
  | cons o os ih =>
      obtain ⟨hc, hh⟩ := ih
      cases o with
      | refused =>
          simp only [List.map_cons, blockNotifs, List.flatten_cons,
            List.nil_append]
          exact ⟨hc, hh⟩
      | connected msgs =>
          simp only [List.map_cons, blockNotifs, List.flatten_cons,
            List.cons_append, List.nil_append]
          constructor
          · rw [List.chain'_cons]
            constructor
            · decide
            · rw [List.chain'_cons']
              constructor
              · intro y hy
                rcases hh with hn | hs
                · rw [hn] at hy
                  cases hy
                · rw [hs] at hy
                  simp only [Option.mem_def, Option.some.injEq] at hy
                  subst hy
                  decide
              · exact hc
          · right
            rfl

/-- Claim C1: `make_turn` hands an Operation message to the websocket exactly
when the local projection has `game_status = in_progress` and `whose_turn`
equal to the client's own identity; for every other combination it sends
nothing, logs no error, and leaves the client state untouched. -/
theorem make_turn_guard :
    ∀ (st : GameApp) (n : Nat) (send : SendOutcome),
      ((make_turn st n send).2.sent = some { payload := { turn := n } } ↔
        turnGuard st) ∧
      ((make_turn st n send).2.sent = none ↔ ¬ turnGuard st) ∧
      ((make_turn st n send).2.logged = true ↔
        (turnGuard st ∧ send = SendOutcome.connectionReset)) ∧
      (make_turn st n send).1 = st := by
  intro st n send
  by_cases h : st.game_status = GameStatus.in_progress ∧
      st.whose_turn = some st.player_id
  · cases send <;> simp [make_turn, turnGuard, h]
  · cases send <;> simp [make_turn, turnGuard, h]

/-- Claim C2: applying a received game-state snapshot event is idempotent,
and the resulting projection does not depend on the projection held before
the event — the last received snapshot wins. -/
theorem on_ws_event_idempotent :
    ∀ (st st' : GameApp) (e : WsEvent) (p : WsGameStatePayload),
      e.data = WsEventData.gameState p →
      p.grid.length = 9 →
      st.tiles.length = 9 →
      st'.tiles.length = 9 →
      projection (on_ws_event (on_ws_event st e) e)
          = projection (on_ws_event st e) ∧
      projection (on_ws_event st e) = projection (on_ws_event st' e) := by
  intro st st' e p hd hg h9 h9'
  obtain ⟨d⟩ := e
  simp only at hd
  subst hd
  have hw : writeTiles st.tiles p.grid = p.grid.map box_types :=
    writeTiles_eq_map p.grid st.tiles (h9.trans hg.symm)
  have hw' : writeTiles st'.tiles p.grid = p.grid.map box_types :=
    writeTiles_eq_map p.grid st'.tiles (h9'.trans hg.symm)
  have hlen : (p.grid.map box_types).length = p.grid.length := by
    simp
  have hw2 : writeTiles (p.grid.map box_types) p.grid
      = p.grid.map box_types :=
    writeTiles_eq_map p.grid (p.grid.map box_types) hlen
  constructor
  · simp [on_ws_event, projection, hw, hw2]
  · simp [on_ws_event, projection, hw, hw']

/-- Claim C2 witness: a concrete snapshot event applied twice to one concrete
projection, and once to a different one, yields the same projection. -/
theorem on_ws_event_idempotent_w :
    sampleEvent.data = WsEventData.gameState samplePayload ∧
    samplePayload.grid.length = 9 ∧
    (GameApp.init "a").tiles.length = 9 ∧
    (GameApp.init "b").tiles.length = 9 ∧
    (projection (on_ws_event (on_ws_event (GameApp.init "a") sampleEvent)
        sampleEvent) = projection (on_ws_event (GameApp.init "a") sampleEvent) ∧
      projection (on_ws_event (GameApp.init "a") sampleEvent)
        = projection (on_ws_event (GameApp.init "b") sampleEvent)) :=
  ⟨rfl, by decide, by decide, by decide,
    on_ws_event_idempotent (GameApp.init "a") (GameApp.init "b") sampleEvent
      samplePayload rfl (by decide) (by decide) (by decide)⟩

/-- Claim C3: the identity token is fixed at construction and never replaced:
every connection attempt of the reconnect loop carries the same token, and
neither the loop, nor `on_ws_event`, nor `make_turn` changes `_player_id`. -/
theorem player_id_stable :
    ∀ (pid : String) (os : List AttemptOutcome) (st : GameApp) (e : WsEvent)
      (n : Nat) (send : SendOutcome),
      ((keep_connection_run (GameApp.init pid) os).2.map IterResult.token)
          = List.replicate os.length pid ∧
      (keep_connection_run (GameApp.init pid) os).1.player_id = pid ∧
      (on_ws_event st e).player_id = st.player_id ∧
      (make_turn st n send).1.player_id = st.player_id := by
  intro pid os st e n send
  obtain ⟨hmap, hpid⟩ := run_tokens os (GameApp.init pid)
  refine ⟨hmap, hpid, ?_, ?_⟩
  · obtain ⟨d⟩ := e
    cases d <;> simp [on_ws_event]
  · by_cases h : st.game_status = GameStatus.in_progress ∧
        st.whose_turn = some st.player_id
    · simp [make_turn, h]
    · simp [make_turn, h]

/-- Claim C4: the reconnect loop never terminates or escapes: for every
finite sequence of connection-attempt outcomes (refusal, drop, close, any
inbound message sequence) it handles each outcome, sleeps the fixed backoff
after every one, and returns to the disconnected loop-top state, ready for
the next attempt. -/
theorem keep_connection_loops :
    ∀ (pid : String) (os : List AttemptOutcome),
      ((keep_connection_run (GameApp.init pid) os).2.map IterResult.backoff)
          = List.replicate os.length CLIENT_RECONNECT_TIMEOUT ∧
      (keep_connection_run (GameApp.init pid) os).1.websocket_connection_state
          = WebsocketConnectionState.DISCONNECTED := by
  intro pid os
  exact ⟨run_backoffs os (GameApp.init pid),
    run_ws os (GameApp.init pid) rfl⟩

/-- Claim C5: a `Connect` notification is posted exactly when a connection is
established while the recorded state is `DISCONNECTED`, and a `Disconnect`
notification exactly when the post-connection block runs while the recorded
state is `CONNECTED`; each posting comes with the corresponding recorded
state transition, and no other notification is ever posted by either
block. -/
theorem connection_notifications :
    ∀ (st : GameApp),
      ((onConnectEstablished st).2 = [ConnEvent.connect] ↔
        st.websocket_connection_state
          = WebsocketConnectionState.DISCONNECTED) ∧
      ((onConnectEstablished st).2 = [ConnEvent.connect] ∨
        (onConnectEstablished st).2 = []) ∧
      (onConnectEstablished st).1.websocket_connection_state
          = WebsocketConnectionState.CONNECTED ∧
      ((onConnectionEnd st).2 = [ConnEvent.disconnect] ↔
        st.websocket_connection_state = WebsocketConnectionState.CONNECTED) ∧
      ((onConnectionEnd st).2 = [ConnEvent.disconnect] ∨
        (onConnectionEnd st).2 = []) ∧
      (onConnectionEnd st).1.websocket_connection_state
          = WebsocketConnectionState.DISCONNECTED := by
  intro st
  cases hws : st.websocket_connection_state <;>
    simp [onConnectEstablished, onConnectionEnd, hws]

/-- Claim C6: every Operation message the client hands to the websocket has
the shape `payload.turn = n` where `n` is the `_num` of the clicked tile, a
cell index between 0 and 8 of the 3-by-3 grid. -/
theorem operation_shape :
    ∀ (st : GameApp) (t : Tile) (send : SendOutcome) (op : WsOperation),
      t ∈ gridTiles →
      (Tile.on_click t st send).2.sent = some op →
      op.payload.turn = t.num ∧ op.payload.turn ≤ 8 := by
  intro st t send op ht hs
  have hn : t.num ≤ 8 := by
    simp only [gridTiles, List.mem_map, List.mem_range] at ht
    obtain ⟨i, hi, hit⟩ := ht
    have : (Tile.mk i).num = i := rfl
    rw [← hit, this]
    have h9 : GRID_SIZE ^ 2 = 9 := by decide
    rw [h9] at hi
    omega
  rw [Tile.on_click] at hs
  rw [make_turn.eq_def] at hs
  split at hs
  · simp only [Option.some.injEq] at hs
    rw [← hs]
    exact ⟨rfl, hn⟩
  · simp at hs

/-- Claim C6 witness: clicking the centre tile of the grid in a state where
the guard holds hands over exactly the message with `turn = 4`. -/
theorem operation_shape_w :
    Tile.mk 4 ∈ gridTiles ∧
    (Tile.on_click (Tile.mk 4) sampleInProgress SendOutcome.ok).2.sent
        = some { payload := { turn := 4 } } ∧
    (({ payload := { turn := 4 } } : WsOperation).payload.turn
        = (Tile.mk 4).num ∧
      ({ payload := { turn := 4 } } : WsOperation).payload.turn ≤ 8) :=
  ⟨by decide, by decide,
    operation_shape sampleInProgress (Tile.mk 4) SendOutcome.ok
      { payload := { turn := 4 } } (by decide) (by decide)⟩

/-- Claim C7: a game-state event is applied in full: `game_status` takes the
payload's status, `whose_turn` the payload's turn pointer, and for every
index `i` below 9 the tile at `i` shows the rendering of grid cell `i`. -/
theorem state_event_applied :
    ∀ (st : GameApp) (e : WsEvent) (p : WsGameStatePayload) (i : Nat),
      e.data = WsEventData.gameState p →
      st.tiles.length = 9 →
      p.grid.length = 9 →
      i < 9 →
      (on_ws_event st e).game_status = p.status ∧
      (on_ws_event st e).whose_turn = p.whose_turn ∧
      (on_ws_event st e).tiles.get? i = (p.grid.get? i).map box_types := by
  intro st e p i hd h9 hg hi
  obtain ⟨d⟩ := e
  simp only at hd
  subst hd
  have hw : writeTiles st.tiles p.grid = p.grid.map box_types :=
    writeTiles_eq_map p.grid st.tiles (h9.trans hg.symm)
  refine ⟨rfl, rfl, ?_⟩
  show (writeTiles st.tiles p.grid).get? i = (p.grid.get? i).map box_types
  rw [hw, get_map_box]

/-- Claim C7 witness: a concrete snapshot event applied to the freshly
initialised client sets all three payload fields, checked at tile 0. -/
theorem state_event_applied_w :
    sampleEvent.data = WsEventData.gameState samplePayload ∧
    (GameApp.init "a").tiles.length = 9 ∧
    samplePayload.grid.length = 9 ∧
    0 < 9 ∧
    ((on_ws_event (GameApp.init "a") sampleEvent).game_status
        = samplePayload.status ∧
      (on_ws_event (GameApp.init "a") sampleEvent).whose_turn
        = samplePayload.whose_turn ∧
      (on_ws_event (GameApp.init "a") sampleEvent).tiles.get? 0
        = (samplePayload.grid.get? 0).map box_types) :=
  ⟨rfl, by decide, by decide, by decide,
    state_event_applied (GameApp.init "a") sampleEvent samplePayload 0
      rfl (by decide) (by decide) (by decide)⟩

/-- Claim C8: inside `make_turn` a failing send raises only
`ConnectionResetError`, which is caught and logged, and the call returns
normally; in every case — guard failing, send succeeding, or send failing —
the client state, hence the whole projection, is returned unchanged. -/
theorem make_turn_error_contained :
    ∀ (st : GameApp) (n : Nat) (send : SendOutcome),
      (make_turn st n send).1 = st ∧
      ((make_turn st n SendOutcome.connectionReset).2.logged = true ↔
        turnGuard st) ∧
      (make_turn st n SendOutcome.ok).2.logged = false := by
  intro st n send
  by_cases h : st.game_status = GameStatus.in_progress ∧
      st.whose_turn = some st.player_id
  · cases send <;> simp [make_turn, turnGuard, h]
  · cases send <;> simp [make_turn, turnGuard, h]

/-- Claim C9: an inbound websocket event whose data is not a game-state
event leaves the whole client state — projection and all — unchanged. -/
theorem non_state_event_ignored :
    ∀ (st : GameApp) (e : WsEvent),
      e.data = WsEventData.other →
      on_ws_event st e = st := by
  intro st e h
  obtain ⟨d⟩ := e
  simp only at h
  subst h
  rfl

/-- Claim C9 witness: a concrete non-game-state event leaves the freshly
initialised client unchanged. -/
theorem non_state_event_ignored_w :
    ({ data := WsEventData.other } : WsEvent).data = WsEventData.other ∧
    on_ws_event (GameApp.init "a") { data := WsEventData.other }
        = GameApp.init "a" :=
  ⟨rfl, non_state_event_ignored (GameApp.init "a")
    { data := WsEventData.other } rfl⟩

/-- Claim C10: over every finite run of the reconnect loop started from the
freshly initialised client, the posted connectivity notifications strictly
alternate — no two consecutive notifications are of the same kind. -/
theorem notifications_alternate :
    ∀ (pid : String) (os : List AttemptOutcome),
      List.Chain' (fun a b => a ≠ b) (notifsOfRun (GameApp.init pid) os) := by
  intro pid os
  rw [run_notifs os (GameApp.init pid) rfl]
  exact (chain_blockNotifs os).1

end Ttt
